import Mathlib

/-!
Verification of the hybrid intent classifier and conversation state machine of the
email-assistant repository.

The development is a shallow embedding of `src/assistant/conversation_state.py` and
`src/assistant/intent_classifier.py`:

* Python enums become Lean inductives, dataclasses become structures.
* Python dicts (with their insertion order, which the scorer iterates over) become
  association lists, looked up with `alookup`.
* Python floats carry only decimal literals and `+`/`max`/`min` here, so they are
  modelled exactly by rationals (`ℚ`).
* The Python `re` module and `json.loads` are external libraries; their behaviour at
  the call sites of this code is abstracted by an explicit oracle (`Regex`, and a
  `String → JsonOutcome` parsing function).  All control flow around those calls is
  translated faithfully.  Concrete instantiations of the oracles (e.g. "no pattern
  matches this input") are used for witnesses and counterexamples.
* Mutation of the shared `ConversationContext` is modelled by explicit state passing:
  each operation returns the context it leaves behind.
-/

namespace EmailAssistant

/-- First-match association-list lookup, the model of Python dict indexing
(`d[k]` / `k in d`).  Python dict keys are unique, so first-match agrees with
dict semantics. -/
def alookup {α β : Type} [DecidableEq α] : List (α × β) → α → Option β
  | [], _ => none
  | (k, v) :: rest, key => if k = key then some v else alookup rest key

/-- `ConversationState` enum from `conversation_state.py`. -/
inductive ConversationState
  | GREETING
  | WAITING_FOR_EMAIL
  | EMAIL_LOADED
  | INFO_EXTRACTED
  | DRAFT_CREATED
  | DRAFT_REFINED
  | READY_TO_SAVE
  | CONVERSATION_COMPLETE
  | ERROR_RECOVERY
deriving DecidableEq, Repr

/-- A value stored in a Python dict of parameters (`Dict[str, Any]`): the code stores
strings, booleans, lists of strings, and `None`. -/
inductive PVal
  | s (v : String)
  | b (v : Bool)
  | ls (v : List String)
  | null
deriving DecidableEq, Repr

/-- Wrap an optional string the way the Python code stores an extractor result that
may be `None`. -/
def PVal.opt : Option String → PVal
  | some v => .s v
  | none => .null

/-- Replace-or-append update of an association list, the model of Python
`d[k] = v` (and of each key set by `dict.update`). -/
def dictSet : List (String × PVal) → String → PVal → List (String × PVal)
  | [], k, v => [(k, v)]
  | (k', v') :: rest, k, v =>
      if k' = k then (k, v) :: rest else (k', v') :: dictSet rest k v

/-- `EmailSession` dataclass (timestamps are opaque strings here). -/
structure EmailSession where
  email_content : String
  extracted_info : Option (List (String × PVal)) := none
  drafts : List String := []
  current_draft : Option String := none
  timestamp : String := ""
  email_id : Option String := none
deriving DecidableEq, Repr

/-- One entry of `conversation_history` ({role, content, timestamp}). -/
structure HistoryEntry where
  role : String
  content : String
  timestamp : String
deriving DecidableEq, Repr

/-- `ConversationContext` dataclass: the mutable record shared by the classifier and
the state machine.  Field defaults mirror the dataclass defaults. -/
structure ConversationContext where
  current_state : ConversationState := .GREETING
  email_content : Option String := none
  extracted_info : Option (List (String × PVal)) := none
  current_draft : Option String := none
  draft_history : List String := []
  email_sessions : List EmailSession := []
  currently_viewed_session : Option String := none
  user_preferences : List (String × PVal) := []
  conversation_history : List HistoryEntry := []
  last_intent : Option String := none
  pending_clarification : Option String := none
  session_start_time : String := ""
deriving DecidableEq, Repr

/-- A fresh context, as built by `ConversationStateManager.__init__`. -/
def initialContext : ConversationContext := {}

/-- The transition table from `ConversationStateManager._setup_state_transitions`:
for each state, the dict of intent → next state, in source order. -/
def transitions : ConversationState → List (String × ConversationState)
  | .GREETING =>
      [("LOAD_EMAIL", .EMAIL_LOADED),
       ("EXTRACT_INFO", .INFO_EXTRACTED),
       ("GENERAL_HELP", .GREETING),
       ("CLARIFICATION_NEEDED", .GREETING),
       ("VIEW_SESSION_HISTORY", .GREETING),
       ("VIEW_SPECIFIC_SESSION", .GREETING)]
  | .WAITING_FOR_EMAIL =>
      [("LOAD_EMAIL", .EMAIL_LOADED),
       ("GENERAL_HELP", .WAITING_FOR_EMAIL),
       ("VIEW_SESSION_HISTORY", .WAITING_FOR_EMAIL),
       ("VIEW_SPECIFIC_SESSION", .WAITING_FOR_EMAIL)]
  | .EMAIL_LOADED =>
      [("EXTRACT_INFO", .INFO_EXTRACTED),
       ("DRAFT_REPLY", .DRAFT_CREATED),
       ("CONTINUE_WORKFLOW", .INFO_EXTRACTED),
       ("DECLINE_OFFER", .EMAIL_LOADED),
       ("LOAD_EMAIL", .EMAIL_LOADED),
       ("VIEW_SESSION_HISTORY", .EMAIL_LOADED),
       ("VIEW_SPECIFIC_SESSION", .EMAIL_LOADED)]
  | .INFO_EXTRACTED =>
      [("DRAFT_REPLY", .DRAFT_CREATED),
       ("CONTINUE_WORKFLOW", .DRAFT_CREATED),
       ("DECLINE_OFFER", .INFO_EXTRACTED),
       ("EXTRACT_INFO", .INFO_EXTRACTED),
       ("LOAD_EMAIL", .EMAIL_LOADED),
       ("CLARIFICATION_NEEDED", .INFO_EXTRACTED),
       ("VIEW_SESSION_HISTORY", .INFO_EXTRACTED),
       ("VIEW_SPECIFIC_SESSION", .INFO_EXTRACTED)]
  | .DRAFT_CREATED =>
      [("REFINE_DRAFT", .DRAFT_REFINED),
       ("SAVE_DRAFT", .READY_TO_SAVE),
       ("CONTINUE_WORKFLOW", .READY_TO_SAVE),
       ("DECLINE_OFFER", .DRAFT_CREATED),
       ("DRAFT_REPLY", .DRAFT_CREATED),
       ("EXTRACT_INFO", .INFO_EXTRACTED),
       ("LOAD_EMAIL", .EMAIL_LOADED),
       ("VIEW_SESSION_HISTORY", .DRAFT_CREATED),
       ("VIEW_SPECIFIC_SESSION", .DRAFT_CREATED)]
  | .DRAFT_REFINED =>
      [("REFINE_DRAFT", .DRAFT_REFINED),
       ("SAVE_DRAFT", .READY_TO_SAVE),
       ("CONTINUE_WORKFLOW", .READY_TO_SAVE),
       ("DECLINE_OFFER", .DRAFT_REFINED),
       ("DRAFT_REPLY", .DRAFT_CREATED),
       ("EXTRACT_INFO", .INFO_EXTRACTED),
       ("LOAD_EMAIL", .EMAIL_LOADED),
       ("VIEW_SESSION_HISTORY", .DRAFT_REFINED),
       ("VIEW_SPECIFIC_SESSION", .DRAFT_REFINED)]
  | .READY_TO_SAVE =>
      [("SAVE_DRAFT", .CONVERSATION_COMPLETE),
       ("REFINE_DRAFT", .DRAFT_REFINED),
       ("DRAFT_REPLY", .DRAFT_CREATED),
       ("LOAD_EMAIL", .EMAIL_LOADED),
       ("EXTRACT_INFO", .INFO_EXTRACTED),
       ("VIEW_SESSION_HISTORY", .READY_TO_SAVE),
       ("VIEW_SPECIFIC_SESSION", .READY_TO_SAVE)]
  | .CONVERSATION_COMPLETE =>
      [("LOAD_EMAIL", .EMAIL_LOADED),
       ("GENERAL_HELP", .GREETING),
       ("VIEW_SESSION_HISTORY", .CONVERSATION_COMPLETE),
       ("VIEW_SPECIFIC_SESSION", .CONVERSATION_COMPLETE)]
  | .ERROR_RECOVERY =>
      [("LOAD_EMAIL", .EMAIL_LOADED),
       ("DRAFT_REPLY", .DRAFT_CREATED),
       ("SAVE_DRAFT", .CONVERSATION_COMPLETE),
       ("EXTRACT_INFO", .INFO_EXTRACTED),
       ("REFINE_DRAFT", .DRAFT_REFINED),
       ("GENERAL_HELP", .GREETING),
       ("CLARIFICATION_NEEDED", .ERROR_RECOVERY),
       ("VIEW_SESSION_HISTORY", .ERROR_RECOVERY),
       ("VIEW_SPECIFIC_SESSION", .ERROR_RECOVERY)]

/-- `ConversationStateManager.transition_state(intent, success)`.
Returns the state it reports together with the context it leaves behind
(the Python method mutates `self.context` in place).  The invalid-transition
branch only prints a warning, modelled as a pure no-op. -/
def transitionState (intent : String) (success : Bool) (ctx : ConversationContext) :
    ConversationState × ConversationContext :=
  if success = false then
    let ctx := { ctx with current_state := ConversationState.ERROR_RECOVERY }
    (ctx.current_state, ctx)
  else
    let current_state := ctx.current_state
    match alookup (transitions current_state) intent with
    | some new_state =>
        let ctx := { ctx with current_state := new_state, last_intent := some intent }
        (ctx.current_state, ctx)
    | none => (ctx.current_state, ctx)

/-! ## Hybrid intent classifier (`intent_classifier.py`) -/

/-- Oracle for the Python `re` library as used by the classifier:
`search pat text` is whether `re.search(pat, text, <flags at the call site>)`
finds a match, `searchG pat text` is `group(1)` of that match (when the call
site extracts a group), and `findall pat text` is `re.findall(pat, text, ...)`.
Patterns are the verbatim regex source strings from the Python file. -/
structure Regex where
  search : String → String → Bool
  searchG : String → String → Option String
  findall : String → String → List String

/-- The oracle modelling an input on which no regex matches at all
(e.g. Python `re` on inputs such as `"zzz"`, `""` or whitespace: every pattern in
this file requires some literal alphanumeric text). -/
def noMatchRx : Regex :=
  { search := fun _ _ => false
    searchG := fun _ _ => none
    findall := fun _ _ => [] }

/-- One entry of the pattern library: intent name, regex list, base confidence. -/
abbrev LibEntry := String × List String × ℚ

/-- `HybridIntentClassifier._setup_rule_patterns`: the full pattern library, in
registration (dict insertion) order. -/
def intentPatterns : List LibEntry :=
  [("LOAD_EMAIL",
    (["here.s an email",
      "here is an email",
      "process this email",
      "i have an email",
      "can you help with this email",
      "process.*email",
      "load.*email",
      "analyze.*email",
      "^process:\\s*",
      "process:\\s*from:",
      "from:.*to:.*subject:",
      "subject:.*from:",
      "from:.*\\n.*to:.*\\n.*subject:",
      "from:.*\\n.*subject:.*\\n.*to:",
      "to:.*\\n.*from:.*\\n.*subject:",
      "dear.*sincerely|regards|best",
      "^from:\\s*\\S+@\\S+",
      "^to:\\s*\\S+@\\S+",
      "^subject:",
      "process.*file",
      "load.*file",
      "analyze.*file",
      "help with.*file",
      "here.s.*file",
      "(?:process|load|analyze|open|read).*\\.(pdf|txt|doc|docx|eml)"],
     (0.9 : ℚ))),
   ("DRAFT_REPLY",
    (["draft.*reply",
      "write.*response",
      "help.*respond",
      "need to reply",
      "create.*reply",
      "compose.*response",
      "draft.*email",
      "create.*draft",
      "try.*draft",
      "draft.*again",
      "try.*drafting",
      "draft.*retry",
      "retry.*draft",
      "^try again$",
      "^try again[!.]*$",
      "^retry$",
      "^retry[!.]*$",
      "try.*draft.*again",
      "try.*drafting.*again",
      "one more try.*draft",
      "give it another try.*draft",
      "please.*try.*draft.*again",
      "help me draft",
      "please draft",
      "one more try",
      "one more try.*please",
      "give.*one more try",
      "draft.*professional.*response",
      "draft.*response.*acknowledging",
      "write.*professional.*reply",
      "create.*professional.*response",
      "compose.*acknowledging",
      "draft.*acknowledging",
      "write.*acknowledging",
      "respond.*professionally",
      "professional.*response",
      "acknowledgment.*response",
      "acknowledging.*response"],
     (0.85 : ℚ))),
   ("REFINE_DRAFT",
    (["make it more (formal|casual|professional|friendly|polite|concise)",
      "make it (formal|casual|professional|friendly|polite|concise)",
      "change.*tone",
      "revise.*draft",
      "refine.*draft",
      "refine\\s+\\d+",
      "improve.*reply",
      "make it (shorter|longer|more concise)",
      "add.*meeting",
      "include.*availability",
      "more (professional|formal)",
      "be more (polite|formal|casual|professional)",
      "add acknowledgment",
      "add.*acknowledgment",
      "offer to schedule",
      "offer.*schedule",
      "schedule.*meeting",
      "add.*satisfaction",
      "acknowledge.*satisfaction",
      "add.*their.*satisfaction",
      "add.*specific.*commitments",
      "add.*commitments",
      "offer.*additional.*support",
      "add.*support",
      "include.*support",
      "add.*specific.*details",
      "include.*specific.*details",
      "add.*timeline",
      "include.*timeline",
      "add.*next.*steps",
      "include.*next.*steps",
      "add.*action.*items",
      "include.*action.*items",
      "make.*more.*specific",
      "be.*more.*specific",
      "add.*more.*detail",
      "include.*more.*detail",
      "expand.*on",
      "elaborate.*on",
      "add.*contact.*info",
      "include.*contact.*info",
      "add.*my.*contact",
      "include.*my.*contact",
      "add.*phone.*number",
      "include.*phone.*number",
      "add.*email.*address",
      "include.*email.*address",
      "add.*signature",
      "include.*signature",
      "add.*request",
      "include.*request",
      "add.*question",
      "include.*question",
      "that.s too (formal|casual|professional|friendly|polite|concise)",
      "too (formal|casual|professional|friendly|polite|concise)",
      "make it more (casual|enthusiastic|friendly|warm|personal)",
      "make it sound more (enthusiastic|friendly|warm|personal|professional)",
      "add more details about",
      "include more details about",
      "add more information about",
      "include more information about",
      "remove.*jargon",
      "remove.*technical",
      "take out.*jargon",
      "take out.*technical",
      "less.*jargon",
      "less.*technical",
      "simpler.*language",
      "plain.*language",
      "make.*simpler",
      "make.*clearer"],
     (0.8 : ℚ))),
   ("SAVE_DRAFT",
    (["^save$",
      "save.*draft",
      "save.*reply",
      "export.*file",
      "keep.*draft",
      "save it",
      "save this",
      "save.*cloud",
      "save.*s3",
      "save.*aws",
      "save.*locally",
      "save to cloud",
      "save to s3",
      "save to aws",
      "save locally",
      "save to file",
      "save in.*cloud",
      "cloud.*storage",
      "upload.*draft",
      "upload.*cloud",
      "save\\s+to\\s+.*\\.(txt|doc|docx|pdf|eml)",
      "save\\s+as\\s+.*\\.(txt|doc|docx|pdf|eml)",
      "filepath?\\s*:\\s*.*\\.(txt|doc|docx|pdf|eml)",
      "path\\s*:\\s*.*\\.(txt|doc|docx|pdf|eml)",
      "save.*(?:the\\s+)?(?:draft|reply|response|email).*to.*\\.(txt|doc|docx|pdf|eml)",
      "save\\s+to\\s+/[\\w/.-]+"],
     (0.95 : ℚ))),
   ("EXTRACT_INFO",
    (["what are.*key details",
      "show.*summary",
      "extract.*information",
      "extract information",
      "who sent.*email",
      "what.s.*about",
      "key information",
      "^summary$",
      "show.*info",
      "key.*details",
      "what.*summary",
      "try.*extract.*again",
      "try.*extracting.*again",
      "extract.*again",
      "extracting.*again",
      "try.*information.*again",
      "what was.*asking for",
      "what did.*want",
      "what was.*requesting",
      "what does.*need",
      "what is.*about",
      "who is.*from",
      "when.*need.*by",
      "when.*deadline",
      "when.*due",
      "what.*deadline",
      "remind me.*about",
      "tell me.*about",
      "what.*again",
      "who.*again",
      "when.*again",
      "what.*subject",
      "what.*sender",
      "what.*from"],
     (0.8 : ℚ))),
   ("GENERAL_HELP",
    (["^help$",
      "^what can you do",
      "how does this work",
      "what are your capabilities",
      "how do i",
      "explain"],
     (0.9 : ℚ))),
   ("CONTINUE_WORKFLOW",
    (["^yes[!.]*$",
      "^ok[!.]*$",
      "^okay[!.]*$",
      "^continue[!.]*$",
      "^proceed[!.]*$",
      "^next[!.]*$",
      "^go ahead[!.]*$",
      "sounds good",
      "that works",
      "please do",
      "go for it",
      "^sure[!.]*$",
      "^do it[!.]*$"],
     (0.7 : ℚ))),
   ("DECLINE_OFFER",
    (["^no[!.]*$",
      "^nope[!.]*$",
      "^not now[!.]*$",
      "^not yet[!.]*$",
      "^skip[!.]*$",
      "^skip that[!.]*$",
      "^skip it[!.]*$",
      "^no thanks[!.]*$",
      "^no thank you[!.]*$",
      "not right now",
      "maybe later",
      "not interested",
      "^pass[!.]*$"],
     (0.7 : ℚ))),
   ("VIEW_SESSION_HISTORY",
    (["show.*history",
      "view.*history",
      "list.*emails",
      "show.*sessions",
      "view.*sessions",
      "what.*emails.*processed",
      "show.*previous.*emails",
      "list.*previous.*emails",
      "session.*history",
      "email.*history",
      "show.*all.*emails",
      "view.*all.*emails"],
     (0.85 : ℚ))),
   ("VIEW_SPECIFIC_SESSION",
    (["show.*email.*\\d+",
      "view.*email.*\\d+",
      "show.*session.*\\d+",
      "view.*session.*\\d+",
      "show.*draft.*from.*email.*\\d+",
      "view.*draft.*from.*email.*\\d+",
      "show.*info.*from.*email.*\\d+",
      "view.*info.*from.*email.*\\d+"],
     (0.9 : ℚ)))]

/-- One entry of `_setup_context_patterns`: the per-state adjustment record. -/
structure CtxAdj where
  yes_patterns : List String
  no_patterns : List String
  default_boost : List (String × ℚ)
deriving DecidableEq, Repr

/-- `HybridIntentClassifier._setup_context_patterns`, in source order. -/
def contextAdjustments : List (ConversationState × CtxAdj) :=
  [(.EMAIL_LOADED,
    { yes_patterns := ["CONTINUE_WORKFLOW", "EXTRACT_INFO"]
      no_patterns := ["DECLINE_OFFER"]
      default_boost := [("DRAFT_REPLY", 0.1), ("EXTRACT_INFO", 0.1)] }),
   (.INFO_EXTRACTED,
    { yes_patterns := ["CONTINUE_WORKFLOW", "DRAFT_REPLY"]
      no_patterns := ["DECLINE_OFFER"]
      default_boost := [("DRAFT_REPLY", 0.15)] }),
   (.DRAFT_CREATED,
    { yes_patterns := ["CONTINUE_WORKFLOW", "SAVE_DRAFT"]
      no_patterns := ["DECLINE_OFFER"]
      default_boost := [("SAVE_DRAFT", 0.1), ("REFINE_DRAFT", 0.1)] }),
   (.DRAFT_REFINED,
    { yes_patterns := ["CONTINUE_WORKFLOW", "SAVE_DRAFT"]
      no_patterns := ["DECLINE_OFFER"]
      default_boost := [("SAVE_DRAFT", 0.15)] }),
   (.ERROR_RECOVERY,
    { yes_patterns := ["CONTINUE_WORKFLOW"]
      no_patterns := ["DECLINE_OFFER"]
      default_boost := [("DRAFT_REPLY", 0.2), ("EXTRACT_INFO", 0.1), ("SAVE_DRAFT", 0.1)] })]

/-- The affirmative exact phrases checked inline in `_apply_context_adjustments`. -/
def yesWords : List String :=
  ["yes", "ok", "okay", "continue", "proceed", "sure", "please do", "go for it", "do it"]

/-- The negative exact phrases checked inline in `_apply_context_adjustments`. -/
def noWords : List String :=
  ["no", "nope", "not now", "not yet", "skip", "skip that", "skip it", "no thanks",
   "no thank you", "pass"]

/-- `HybridIntentClassifier._apply_context_adjustments(intent, confidence, user_input,
context)`.  `user_input` is the already lowercased+stripped input the caller passes. -/
def applyContextAdjustments (intent : String) (confidence : ℚ) (user_input : String)
    (ctx : ConversationContext) : ℚ :=
  match alookup contextAdjustments ctx.current_state with
  | none => confidence
  | some adjustments =>
      let user_input_clean := user_input.trim.toLower
      if yesWords.contains user_input_clean && intent == "CONTINUE_WORKFLOW" then 0.95
      else if noWords.contains user_input_clean && intent == "DECLINE_OFFER" then 0.95
      else
        let confidence :=
          match alookup adjustments.default_boost intent with
          | some boost => confidence + boost
          | none => confidence
        min confidence 1

/-- The registered confidence delta of `_setup_context_patterns` for a state/intent
pair, when there is one (`adjustments['default_boost'][intent]`). -/
def stateBoost (s : ConversationState) (intent : String) : Option ℚ :=
  match alookup contextAdjustments s with
  | none => none
  | some adjustments => alookup adjustments.default_boost intent

/-- The inner pattern loop of `_classify_with_rules`: for each regex of one intent,
raise the running confidence to the intent's base confidence on a hit and record the
matched pattern. -/
def patternLoop (rx : Regex) (inp : String) (base : ℚ) :
    List String → ℚ × List String → ℚ × List String
  | [], acc => acc
  | p :: rest, (confidence, matched) =>
      if rx.search p inp then
        patternLoop rx inp base rest (max confidence base, matched ++ [p])
      else
        patternLoop rx inp base rest (confidence, matched)

/-- Substring test, the model of Python `sub in s` (never called with empty `sub`). -/
def strContains (s sub : String) : Bool := (s.splitOn sub).length != 1

/-- The character set of Python `strip('"\x27')` (double quote and apostrophe). -/
def quoteChars : List Char := ['"', Char.ofNat 39]

/-- Python `s.strip(chars)`: drop the given characters from both ends. -/
def stripChars (cs : List Char) (s : String) : String :=
  let l := s.toList.dropWhile (fun c => cs.contains c)
  String.mk ((l.reverse.dropWhile (fun c => cs.contains c)).reverse)

/-- Python `lst[n]` on a list known to be long enough (total here via a default). -/
def pyIndex (l : List String) (n : Nat) : String := l.getD n ""

/-- `_extract_tone`: the tone dict, in source order. -/
def tonePatterns : List (String × String) :=
  [("formal", "formal|professional"),
   ("casual", "casual|informal|friendly"),
   ("concise", "concise|brief|short"),
   ("polite", "polite|courteous")]

/-- Loop body of `_extract_tone`: first tone whose pattern hits wins. -/
def toneLoop (rx : Regex) (inp : String) : List (String × String) → Option String
  | [] => none
  | (tone, pattern) :: rest =>
      if rx.search pattern inp then some tone else toneLoop rx inp rest

/-- `HybridIntentClassifier._extract_tone` (called on the lowercased input). -/
def extractTone (rx : Regex) (user_input : String) : Option String :=
  toneLoop rx user_input tonePatterns

/-- `_extract_session_id` patterns, in source order. -/
def sessionPatterns : List String :=
  ["(?:email|session)\\s+(\\d+)", "(?:email|session)\\s+#(\\d+)", "#(\\d+)"]

/-- Loop body of `_extract_session_id`. -/
def sessionLoop (rx : Regex) (inp : String) : List String → Option String
  | [] => none
  | pattern :: rest =>
      match rx.searchG pattern inp with
      | some session_num => some ("email_" ++ session_num)
      | none => sessionLoop rx inp rest

/-- `HybridIntentClassifier._extract_session_id`. -/
def extractSessionId (rx : Regex) (user_input : String) : Option String :=
  sessionLoop rx user_input sessionPatterns

/-- `_extract_refinement_instructions` patterns, in source order. -/
def refinementPatterns : List String :=
  ["make it (?:more|less) \\w+", "add \\w+", "include \\w+", "change \\w+", "remove \\w+"]

/-- `HybridIntentClassifier._extract_refinement_instructions`: join all `findall`
hits, else fall back to the whole input. -/
def extractRefinementInstructions (rx : Regex) (user_input : String) : String :=
  let instructions := refinementPatterns.foldl (fun acc p => acc ++ rx.findall p user_input) []
  if instructions.isEmpty then user_input else String.intercalate " " instructions

/-- `_extract_cloud_preference` patterns, in source order. -/
def cloudPatterns : List String :=
  ["save.*cloud", "save.*s3", "cloud.*storage", "upload.*draft", "save.*aws",
   "to.*cloud", "in.*cloud"]

/-- `HybridIntentClassifier._extract_cloud_preference`. -/
def extractCloudPreference (rx : Regex) (user_input : String) : Bool :=
  cloudPatterns.any (fun p => rx.search p user_input)

/-- `_extract_file_path` patterns (the helper used by email-content sniffing),
in source order. -/
def filePathPatterns : List String :=
  ["(?:load|process|analyze)\\s+([^\\s]+\\.(?:docx|pdf|txt|eml|doc))",
   "([^\\s]+\\.(?:docx|pdf|txt|eml|doc))(?:\\s|$)",
   "(?:help with|work with|process|load|analyze)\\s+[\\\x27\"]([^\\\x27\\\"]+)[\\\x27\"]",
   "(?:here.s|here is)\\s+(?:a\\s+)?(?:file|document):\\s*([^\\s]+\\.(?:docx|pdf|txt|eml|doc))",
   "(?:file|document)\\s+(?:is|at|located at):\\s*([^\\s]+)"]

/-- Loop body of `_extract_file_path`: first group-1 hit that is not a bare email
header wins (headers are skipped, the loop continues). -/
def filePathLoop (rx : Regex) (inp : String) : List String → Option String
  | [] => none
  | pattern :: rest =>
      match rx.searchG pattern inp with
      | some g =>
          let file_path := stripChars quoteChars g.trim
          if ["from:", "to:", "subject:"].contains file_path.toLower then
            filePathLoop rx inp rest
          else some file_path
      | none => filePathLoop rx inp rest

/-- `HybridIntentClassifier._extract_file_path`. -/
def extractFilePath (rx : Regex) (user_input : String) : Option String :=
  filePathLoop rx user_input filePathPatterns

/-- `_extract_email_content` intro patterns, in source order. -/
def emailIntroPatterns : List String :=
  ["(?:process|analyze|help with|here.s|here is)\\s+(?:this\\s+)?(?:email|message):\\s*(.*)",
   "(?:i have|got)\\s+(?:an\\s+)?(?:email|message):\\s*(.*)",
   "(?:can you help with|work on)\\s+(?:this\\s+)?(?:email|message):\\s*(.*)",
   "^process:\\s*(.*)"]

/-- `_extract_email_content` whole-input indicator patterns, in source order. -/
def emailIndicators : List String :=
  ["from:.*to:.*subject:",
   "subject:.*from:",
   "from:.*\\n.*to:.*\\n.*subject:",
   "from:.*\\n.*subject:.*\\n.*to:",
   "to:.*\\n.*from:.*\\n.*subject:",
   "dear.*sincerely|regards|best"]

/-- Intro-pattern loop of `_extract_email_content`: a group-1 hit is returned only
when it looks like real email content (a From header, a Subject header, or more than
50 characters); otherwise the loop continues. -/
def emailIntroLoop (rx : Regex) (inp : String) : List String → Option String
  | [] => none
  | pattern :: rest =>
      match rx.searchG pattern inp with
      | some g =>
          let email_content := g.trim
          if rx.search "from:\\s*\\S+@\\S+" email_content
              || rx.search "subject:" email_content
              || email_content.length > 50 then
            some email_content
          else emailIntroLoop rx inp rest
      | none => emailIntroLoop rx inp rest

/-- Indicator loop of `_extract_email_content`: on a hit the whole stripped input is
taken as the email content. -/
def emailIndicatorLoop (rx : Regex) (inp : String) : List String → Option String
  | [] => none
  | pattern :: rest =>
      if rx.search pattern inp then some inp.trim
      else emailIndicatorLoop rx inp rest

/-- `HybridIntentClassifier._extract_email_content`: file path heuristics first, then
intro phrases, then whole-input indicators; the first successful heuristic wins. -/
def extractEmailContent (rx : Regex) (user_input : String) : Option String :=
  match extractFilePath rx user_input with
  | some file_path => some file_path
  | none =>
      match emailIntroLoop rx user_input emailIntroPatterns with
      | some email_content => some email_content
      | none => emailIndicatorLoop rx user_input emailIndicators

/-- The cloud words `_extract_filepath` refuses to treat as paths. -/
def cloudTerms : List String := ["cloud", "s3", "aws", "bucket"]

/-- `_extract_filepath` patterns (the parameter extractor), in source order. -/
def filepathPatterns : List String :=
  ["save\\s+to\\s+([^\\s]+\\.(?:txt|doc|docx|pdf|eml))",
   "save\\s+as\\s+([^\\s]+)",
   "save\\s+(?:to|as)\\s+([^\\s]+\\.txt)",
   "save\\s+(?:to|as)\\s+([^\\s]+\\.pdf)",
   "filepath?\\s*:\\s*([^\\s]+)",
   "path\\s*:\\s*([^\\s]+)",
   "save\\s+to\\s+([/\\\\][\\w/\\\\.-]+)",
   "save\\s+to\\s+([\\w.-]+[/\\\\][\\w/\\\\.-]+)",
   "(?:save.*(?:cloud|s3|aws).*)?in\\s+dir(?:ectory)?\\s+([^\\s]+)",
   "(?:save.*(?:cloud|s3|aws).*)?to\\s+dir(?:ectory)?\\s+([^\\s]+)",
   "save.*in\\s+dir(?:ectory)?\\s+([^\\s]+)",
   "save.*to\\s+dir(?:ectory)?\\s+([^\\s]+)"]

/-- Loop body of `_extract_filepath`: skips cloud terms, and formats a bare directory
name as `name/` when the matching pattern itself mentions `dir`. -/
def filepathLoop (rx : Regex) (inp : String) : List String → Option String
  | [] => none
  | pattern :: rest =>
      match rx.searchG pattern inp with
      | some g =>
          let filepath := stripChars quoteChars g.trim
          if cloudTerms.contains filepath.toLower then filepathLoop rx inp rest
          else
            let filepath :=
              if strContains pattern "dir" then
                if !filepath.endsWith "/" && !filepath.contains '/'
                    && !filepath.contains (Char.ofNat 92) then
                  filepath ++ "/"
                else filepath
              else filepath
            some filepath
      | none => filepathLoop rx inp rest

/-- `HybridIntentClassifier._extract_filepath`. -/
def extractFilepath (rx : Regex) (user_input : String) : Option String :=
  filepathLoop rx user_input filepathPatterns

/-- `IntentResult` dataclass. -/
structure IntentResult where
  intent : String
  confidence : ℚ
  parameters : List (String × PVal)
  reasoning : String
  method : String
deriving DecidableEq, Repr

/-- The `best_parameters.update({...})` call of `_classify_with_rules`: the six keys
set, in source order (extractors on the winning intent; `refinement_instructions` and
`session_id` see the original-case input, the others the lowercased one). -/
def updateBestParameters (rx : Regex) (user_input user_input_lower : String)
    (bp : List (String × PVal)) (matched_patterns : List String) : List (String × PVal) :=
  let bp := dictSet bp "matched_patterns" (.ls matched_patterns)
  let bp := dictSet bp "tone" (PVal.opt (extractTone rx user_input_lower))
  let bp := dictSet bp "refinement_instructions" (.s (extractRefinementInstructions rx user_input))
  let bp := dictSet bp "cloud" (.b (extractCloudPreference rx user_input_lower))
  let bp := dictSet bp "filepath" (PVal.opt (extractFilepath rx user_input_lower))
  dictSet bp "session_id" (PVal.opt (extractSessionId rx user_input))

/-- The main loop of `_classify_with_rules` over the pattern library, carrying
`(best_match, best_confidence, best_parameters)`.  An intent replaces the running
best only on a strictly greater confidence (`confidence > best_confidence`). -/
def rulesLoop (rx : Regex) (user_input user_input_lower : String) (ctx : ConversationContext) :
    List LibEntry → Option String × ℚ × List (String × PVal) →
      Option String × ℚ × List (String × PVal)
  | [], acc => acc
  | entry :: rest, (best_match, best_confidence, best_parameters) =>
      let scanned := patternLoop rx user_input_lower entry.2.2 entry.2.1 (0, [])
      let confidence :=
        max scanned.1 (applyContextAdjustments entry.1 scanned.1 user_input_lower ctx)
      if best_confidence < confidence then
        rulesLoop rx user_input user_input_lower ctx rest
          (some entry.1, confidence,
           updateBestParameters rx user_input user_input_lower best_parameters scanned.2)
      else
        rulesLoop rx user_input user_input_lower ctx rest
          (best_match, best_confidence, best_parameters)

/-- The adjusted confidence `_classify_with_rules` computes for one library entry,
as a function of the already lowercased-and-stripped input the loop works on:
pattern scan, context adjustment, and the final `max`. -/
def entryConfidence (rx : Regex) (user_input_lower : String) (ctx : ConversationContext)
    (entry : LibEntry) : ℚ :=
  let scanned := patternLoop rx user_input_lower entry.2.2 entry.2.1 (0, [])
  max scanned.1 (applyContextAdjustments entry.1 scanned.1 user_input_lower ctx)

/-- The adjusted confidence of one library entry as a function of the raw input
(the loop lowercases and strips it first, as `_classify_with_rules` does). -/
def intentConfidence (rx : Regex) (user_input : String) (ctx : ConversationContext)
    (entry : LibEntry) : ℚ :=
  entryConfidence rx (user_input.toLower.trim) ctx entry

/-- The initial `best_parameters` dict of `_classify_with_rules`: the sniffed email
content, when there is one. -/
def initParams (rx : Regex) (user_input : String) : List (String × PVal) :=
  match extractEmailContent rx user_input with
  | some email_content => [("email_content", PVal.s email_content)]
  | none => []

/-- `HybridIntentClassifier._classify_with_rules`.  The returned context is the one
the call leaves behind (the Python method never writes to it). -/
def classifyWithRules (rx : Regex) (user_input : String) (ctx : ConversationContext) :
    IntentResult × ConversationContext :=
  let user_input_lower := user_input.toLower.trim
  let best_parameters := initParams rx user_input
  let result := rulesLoop rx user_input user_input_lower ctx intentPatterns
    (none, 0, best_parameters)
  ({ intent := result.1.getD "CLARIFICATION_NEEDED"
     confidence := result.2.1
     parameters := result.2.2
     reasoning := "Rule-based match with confidence " ++ toString result.2.1
     method := "rule_based" }, ctx)

/-- The numeric `confidence` field of the collaborator JSON after Python
`float(data.get(\"confidence\", 0.5))`: either a value or a `ValueError`. -/
inductive JsonConf
  | val (q : ℚ)
  | invalid (msg : String)
deriving DecidableEq, Repr

/-- An abstract parsed collaborator JSON object (`json.loads` result): the four
fields `_parse_llm_response` reads, each possibly absent. -/
structure JsonData where
  intent : Option String := none
  confidence : Option JsonConf := none
  parameters : Option (List (String × PVal)) := none
  reasoning : Option String := none
deriving DecidableEq, Repr

/-- Outcome of `json.loads` on a cleaned response string: a decode error or data. -/
inductive JsonOutcome
  | jerror (msg : String)
  | jdata (d : JsonData)
deriving DecidableEq, Repr

/-- Behaviour of a (stubbed, deterministic) collaborator `send_prompt` call:
it raises, returns a non-string object, or returns a string. -/
inductive SendOutcome
  | raises (e : String)
  | nonString
  | returns (response : String)
deriving DecidableEq, Repr

/-- Markdown-fence stripping at the top of `_parse_llm_response`. -/
def cleanResponse (response : String) : String :=
  if strContains response "```json" then
    pyIndex ((pyIndex (response.splitOn "```json") 1).splitOn "```") 0
  else if strContains response "```" then
    pyIndex (response.splitOn "```") 1
  else response

/-- `HybridIntentClassifier._parse_llm_response`, over a JSON-parsing oracle `jp`
standing for `json.loads`.  Decode and `float()` failures both land in the same
`except` branch (an `error_fallback` result with confidence 0.3).  Note the parsed
confidence is copied verbatim, without clamping. -/
def parseLLMResponse (jp : String → JsonOutcome) (response : String) : IntentResult :=
  let response := cleanResponse response
  match jp response.trim with
  | .jerror e =>
      { intent := "CLARIFICATION_NEEDED", confidence := 0.3,
        parameters := [("parse_error", .s e), ("raw_response", .s response)],
        reasoning := "Failed to parse LLM response", method := "error_fallback" }
  | .jdata data =>
      match data.confidence.getD (JsonConf.val 0.5) with
      | .invalid e =>
          { intent := "CLARIFICATION_NEEDED", confidence := 0.3,
            parameters := [("parse_error", .s e), ("raw_response", .s response)],
            reasoning := "Failed to parse LLM response", method := "error_fallback" }
      | .val confidence =>
          { intent := data.intent.getD "CLARIFICATION_NEEDED"
            confidence := confidence
            parameters := data.parameters.getD []
            reasoning := data.reasoning.getD "LLM classification"
            method := "llm_based" }

/-- `HybridIntentClassifier._classify_with_llm` with a stubbed collaborator `proc`
(the classification prompt it would be sent is built from the context and input but
cannot influence a fixed stub, so it is not materialised here).  Any exception from
`send_prompt` is caught and becomes the `error_fallback` result; it never escapes. -/
def classifyWithLLM (jp : String → JsonOutcome) (proc : Option SendOutcome)
    (user_input : String) (ctx : ConversationContext) : IntentResult × ConversationContext :=
  match proc with
  | none =>
      ({ intent := "CLARIFICATION_NEEDED", confidence := 0.5, parameters := [],
         reasoning := "LLM classification not available", method := "fallback" }, ctx)
  | some (.raises e) =>
      ({ intent := "CLARIFICATION_NEEDED", confidence := 0.5,
         parameters := [("error", .s e)],
         reasoning := "LLM classification failed", method := "error_fallback" }, ctx)
  | some .nonString =>
      ({ intent := "CLARIFICATION_NEEDED", confidence := 0.5, parameters := [],
         reasoning := "LLM classification returned invalid response type",
         method := "fallback" }, ctx)
  | some (.returns response) =>
      let result := parseLLMResponse jp response
      let result :=
        if result.method != "error_fallback" then { result with method := "llm_based" }
        else result
      (result, ctx)

/-- The final `CLARIFICATION_NEEDED` fallback result of `classify`. -/
def clarificationFallback (user_input : String) (proc : Option SendOutcome) : IntentResult :=
  { intent := "CLARIFICATION_NEEDED", confidence := 0.9,
    parameters := [("original_input", .s user_input), ("fallback_attempted", .b proc.isSome)],
    reasoning := "Input is ambiguous and needs clarification", method := "fallback" }

/-- Lines 399-418 of `classify` (the code after the conditional LLM escalation):
keep the rule result above 0.3, otherwise try the LLM once more with a lower
acceptance bar, otherwise return the clarification fallback. -/
def classifyTail (jp : String → JsonOutcome) (proc : Option SendOutcome)
    (user_input : String) (rule_result : IntentResult) (ctx : ConversationContext) :
    IntentResult × ConversationContext :=
  if rule_result.confidence > 0.3 then (rule_result, ctx)
  else
    match proc with
    | some _ =>
        let r := classifyWithLLM jp proc user_input ctx
        let llm_fallback := r.1
        if llm_fallback.confidence > 0.4 then
          ({ llm_fallback with
             reasoning := "Fallback LLM classification: " ++ llm_fallback.reasoning }, r.2)
        else (clarificationFallback user_input proc, r.2)
    | none => (clarificationFallback user_input proc, ctx)

/-- `HybridIntentClassifier.classify`, the public entry point, with the context
threaded through every step exactly as the mutable `self.context` would be. -/
def classify (rx : Regex) (jp : String → JsonOutcome) (proc : Option SendOutcome)
    (user_input : String) (ctx : ConversationContext) : IntentResult × ConversationContext :=
  let r := classifyWithRules rx user_input ctx
  let rule_result := r.1
  let ctx := r.2
  if 0.8 ≤ rule_result.confidence then (rule_result, ctx)
  else
    if proc.isSome ∧ rule_result.confidence < 0.6 then
      let r2 := classifyWithLLM jp proc user_input ctx
      let llm_result := r2.1
      let ctx := r2.2
      if llm_result.confidence > rule_result.confidence then (llm_result, ctx)
      else classifyTail jp proc user_input rule_result ctx
    else classifyTail jp proc user_input rule_result ctx

/-- The `k`-th entry of the pattern library (used to name concrete entries in
witness statements). -/
def entryAt (k : ℕ) : LibEntry := intentPatterns.getD k ("", [], 0)

/-- A context sitting in `EMAIL_LOADED` (a state with registered boosts). -/
def ctxEmailLoaded : ConversationContext :=
  { initialContext with current_state := .EMAIL_LOADED }

/-- A JSON-parsing oracle for a collaborator stub whose reply `"RESP"` parses to a
well-formed object reporting confidence 5 (a value a real LLM could emit, since
nothing validates the JSON number). -/
def jpBig : String → JsonOutcome := fun s =>
  if s = "RESP" then
    .jdata { intent := some "DRAFT_REPLY", confidence := some (.val 5),
             parameters := some [], reasoning := some "r" }
  else .jerror "unreachable"

/-- A JSON-parsing oracle for runs in which no string reply is ever parsed. -/
def jpErr : String → JsonOutcome := fun _ => .jerror "n/a"

/-! ## Theorems -/

/-- Membership inversion for `alookup`. -/
theorem alookup_mem {α β : Type} [DecidableEq α] :
    ∀ (l : List (α × β)) (k : α) (v : β), alookup l k = some v → (k, v) ∈ l := by
  intro l
  induction l with
  | nil => intro k v h; simp [alookup] at h
  | cons hd tl ih =>
    intro k v h
    simp only [alookup] at h
    split at h
    · rename_i heq
      cases h
      subst heq
      exact List.mem_cons_self _ _
    · exact List.mem_cons_of_mem _ (ih k v h)

/-- C1: for every conversation context (hence every current state `S`) and every
intent `I`, `transition_state(I, success=False)` sets the current state to
`ERROR_RECOVERY` and returns `ERROR_RECOVERY`, regardless of `S` and `I`. -/
theorem claim_C1 (ctx : ConversationContext) (intent : String) :
    (transitionState intent false ctx).1 = ConversationState.ERROR_RECOVERY ∧
    (transitionState intent false ctx).2.current_state = ConversationState.ERROR_RECOVERY :=
  ⟨rfl, rfl⟩

/-- C2: if `(current_state, intent)` is absent from the transition table,
`transition_state(intent, success=True)` returns the current state and leaves the
current state unchanged (it is a total function: no exception is modelled or needed;
the source merely prints a diagnostic). -/
theorem claim_C2 (ctx : ConversationContext) (intent : String)
    (h : alookup (transitions ctx.current_state) intent = none) :
    (transitionState intent true ctx).1 = ctx.current_state ∧
    (transitionState intent true ctx).2.current_state = ctx.current_state := by
  simp only [transitionState, Bool.true_eq_false, if_false, h]
  exact ⟨trivial, trivial⟩

/-- Witness for C2 at a concrete input: `SAVE_DRAFT` is not a valid intent in
`GREETING`, and the transition is a no-op there. -/
theorem claim_C2_witness :
    alookup (transitions ConversationState.GREETING) "SAVE_DRAFT" = none ∧
    (transitionState "SAVE_DRAFT" true initialContext).1 = ConversationState.GREETING :=
  ⟨by decide, (claim_C2 initialContext "SAVE_DRAFT" (by decide)).1⟩

/-- Counterexample to C8 as stated: from a fresh context, a failed `LOAD_EMAIL`
transition moves to `ERROR_RECOVERY` but does NOT record the intent — `last_intent`
is still `None` afterwards.  (`transition_state` returns before reaching the code
that sets `last_intent` whenever `success=False`.) -/
theorem claim_C8_counterexample :
    (transitionState "LOAD_EMAIL" false initialContext).2.current_state =
      ConversationState.ERROR_RECOVERY ∧
    (transitionState "LOAD_EMAIL" false initialContext).2.last_intent ≠ some "LOAD_EMAIL" := by
  constructor
  · rfl
  · intro h
    simp [transitionState, initialContext] at h

/-- C8 (amended): calling `transition_state` with `success=False` sets the state to
`ERROR_RECOVERY` but leaves `last_intent` unchanged; `last_intent` is updated only on
successful table transitions. -/
theorem claim_C8 (ctx : ConversationContext) (intent : String) :
    (transitionState intent false ctx).2.current_state = ConversationState.ERROR_RECOVERY ∧
    (transitionState intent false ctx).2.last_intent = ctx.last_intent :=
  ⟨rfl, rfl⟩

/-- C10: when `success=True` and `(current_state, intent)` is absent from the
transition table, the entire `ConversationContext` is unchanged — in particular
`last_intent`, `email_content`, `draft_history` and `conversation_history` keep
their previous values. -/
theorem claim_C10 (ctx : ConversationContext) (intent : String)
    (h : alookup (transitions ctx.current_state) intent = none) :
    (transitionState intent true ctx).2 = ctx := by
  simp only [transitionState, Bool.true_eq_false, if_false, h]

/-- Witness for C10 at a concrete input: an invalid `SAVE_DRAFT` in `GREETING`
leaves the fresh context exactly as it was. -/
theorem claim_C10_witness :
    alookup (transitions ConversationState.GREETING) "SAVE_DRAFT" = none ∧
    (transitionState "SAVE_DRAFT" true initialContext).2 = initialContext :=
  ⟨by decide, claim_C10 initialContext "SAVE_DRAFT" (by decide)⟩

/-- Every confidence delta in the context-adjustment table lies in [0, 0.2]. -/
theorem boost_table_bounds :
    ∀ p ∈ contextAdjustments, ∀ q ∈ p.2.default_boost, 0 ≤ q.2 ∧ q.2 ≤ 0.2 := by
  with_unfolding_all decide

/-- A registered state/intent delta lies in [0, 0.2]. -/
theorem stateBoost_bounds (s : ConversationState) (intent : String) (d : ℚ)
    (h : stateBoost s intent = some d) : 0 ≤ d ∧ d ≤ 0.2 := by
  unfold stateBoost at h
  rcases hs : alookup contextAdjustments s with _ | adj
  · rw [hs] at h; cases h
  · rw [hs] at h
    exact boost_table_bounds _ (alookup_mem _ _ _ hs) _ (alookup_mem _ _ _ h)

/-- Every base confidence in the pattern library lies in [0.7, 0.95]. -/
theorem lib_base_bounds : ∀ e ∈ intentPatterns, (0.7 : ℚ) ≤ e.2.2 ∧ e.2.2 ≤ 0.95 := by
  with_unfolding_all decide

/-- No library intent is named `CLARIFICATION_NEEDED` (that name only arises as the
no-match default). -/
theorem lib_names_ne_clarification : ∀ e ∈ intentPatterns, e.1 ≠ "CLARIFICATION_NEEDED" := by
  with_unfolding_all decide

/-- The intent names of the pattern library are pairwise distinct. -/
theorem lib_names_nodup : (intentPatterns.map Prod.fst).Nodup := by
  with_unfolding_all decide

/-- The confidence component of the inner pattern loop is either left at its initial
value or raised to the intent's base confidence. -/
theorem patternLoop_fst (rx : Regex) (inp : String) (base : ℚ) :
    ∀ (pats : List String) (c : ℚ) (m : List String),
      (patternLoop rx inp base pats (c, m)).1 = c ∨
      (patternLoop rx inp base pats (c, m)).1 = max c base := by
  intro pats
  induction pats with
  | nil => intro c m; left; rfl
  | cons p rest ih =>
      intro c m
      simp only [patternLoop]
      split
      · rcases ih (max c base) (m ++ [p]) with h | h
        · right; rw [h]
        · right; rw [h, max_assoc, max_self]
      · exact ih c m

/-- When no pattern of the entry matches, the inner pattern loop is the identity. -/
theorem patternLoop_nomatch (rx : Regex) (inp : String) (base : ℚ) :
    ∀ (pats : List String) (acc : ℚ × List String),
      (∀ p ∈ pats, rx.search p inp = false) →
      patternLoop rx inp base pats acc = acc := by
  intro pats
  induction pats with
  | nil => intro acc _; rfl
  | cons p rest ih =>
      intro acc h
      obtain ⟨c, m⟩ := acc
      simp only [patternLoop]
      rw [h p (List.mem_cons_self ..)]
      simp only [Bool.false_eq_true, if_false]
      exact ih _ fun q hq => h q (List.mem_cons_of_mem _ hq)

/-- The context adjustment maps a confidence in [0, 1] back into [0, 1]. -/
theorem applyContextAdjustments_bounds (intent : String) (conf : ℚ) (input : String)
    (ctx : ConversationContext) (h0 : 0 ≤ conf) (h1 : conf ≤ 1) :
    0 ≤ applyContextAdjustments intent conf input ctx ∧
      applyContextAdjustments intent conf input ctx ≤ 1 := by
  unfold applyContextAdjustments
  rcases hs : alookup contextAdjustments ctx.current_state with _ | adj
  · exact ⟨h0, h1⟩
  · simp only
    split_ifs
    · norm_num
    · norm_num
    · rcases hb : alookup adj.default_boost intent with _ | d <;> dsimp only
      · exact ⟨le_min h0 (by norm_num), min_le_right _ _⟩
      · have hd := stateBoost_bounds ctx.current_state intent d
          (by unfold stateBoost; rw [hs]; exact hb)
        exact ⟨le_min (add_nonneg h0 hd.1) (by norm_num), min_le_right _ _⟩

/-- Every library entry's adjusted confidence lies in [0, 1], whatever the input. -/
theorem entryConfidence_bounds (rx : Regex) (ul : String) (ctx : ConversationContext)
    (e : LibEntry) (he : e ∈ intentPatterns) :
    0 ≤ entryConfidence rx ul ctx e ∧ entryConfidence rx ul ctx e ≤ 1 := by
  obtain ⟨hb1, hb2⟩ := lib_base_bounds e he
  have h07 : (0 : ℚ) ≤ e.2.2 := le_trans (by norm_num) hb1
  have h1 : e.2.2 ≤ 1 := le_trans hb2 (by norm_num)
  unfold entryConfidence
  dsimp only
  rcases patternLoop_fst rx ul e.2.2 e.2.1 0 [] with h | h <;> rw [h]
  · have ha := applyContextAdjustments_bounds e.1 0 ul ctx le_rfl (by norm_num)
    exact ⟨le_max_left _ _, max_le (by norm_num) ha.2⟩
  · rw [max_eq_right h07]
    have ha := applyContextAdjustments_bounds e.1 e.2.2 ul ctx h07 h1
    exact ⟨le_trans h07 (le_max_left _ _), max_le h1 ha.2⟩

/-- An entry's adjusted confidence is either at most 0.2 (no pattern hit: zero or a
registered delta) or at least 0.6 (a base confidence or an exact-phrase override):
nothing in between is achievable. -/
theorem entryConfidence_cases (rx : Regex) (ul : String) (ctx : ConversationContext)
    (e : LibEntry) (he : e ∈ intentPatterns) :
    entryConfidence rx ul ctx e ≤ 0.2 ∨ 0.6 ≤ entryConfidence rx ul ctx e := by
  obtain ⟨hb1, hb2⟩ := lib_base_bounds e he
  unfold entryConfidence
  dsimp only
  rcases patternLoop_fst rx ul e.2.2 e.2.1 0 [] with h0 | h0 <;> rw [h0]
  · unfold applyContextAdjustments
    rcases hs : alookup contextAdjustments ctx.current_state with _ | adj <;> dsimp only
    · left
      rw [max_self]
      norm_num
    · split_ifs with hy hn
      · right
        rw [max_eq_right (by norm_num : (0 : ℚ) ≤ 0.95)]
        norm_num
      · right
        rw [max_eq_right (by norm_num : (0 : ℚ) ≤ 0.95)]
        norm_num
      · rcases hb : alookup adj.default_boost e.1 with _ | d <;> dsimp only
        · left
          rw [min_eq_left (by norm_num : (0 : ℚ) ≤ 1), max_self]
          norm_num
        · left
          have hd := stateBoost_bounds ctx.current_state e.1 d
            (by unfold stateBoost; rw [hs]; exact hb)
          rw [zero_add, min_eq_left (le_trans hd.2 (by norm_num)), max_eq_right hd.1]
          exact hd.2
  · right
    rw [max_eq_right (le_trans (by norm_num) hb1 : (0 : ℚ) ≤ e.2.2)]
    exact le_trans (by norm_num : (0.6 : ℚ) ≤ 0.7) (le_trans hb1 (le_max_left _ _))

/-- Gap lemma for one entry: an adjusted confidence below 0.6 is in fact at most
0.2. -/
theorem entryConfidence_gap (rx : Regex) (ul : String) (ctx : ConversationContext)
    (e : LibEntry) (he : e ∈ intentPatterns)
    (h : entryConfidence rx ul ctx e < 0.6) : entryConfidence rx ul ctx e ≤ 0.2 := by
  rcases entryConfidence_cases rx ul ctx e he with hc | hc
  · exact hc
  · exact absurd h (not_lt.mpr hc)

/-- One unfolding step of the scorer's main loop, phrased with `entryConfidence`. -/
theorem rulesLoop_cons (rx : Regex) (ui ul : String) (ctx : ConversationContext)
    (e : LibEntry) (rest : List LibEntry) (bm : Option String) (bc : ℚ)
    (bp : List (String × PVal)) :
    rulesLoop rx ui ul ctx (e :: rest) (bm, bc, bp) =
      if bc < entryConfidence rx ul ctx e then
        rulesLoop rx ui ul ctx rest
          (some e.1, entryConfidence rx ul ctx e,
           updateBestParameters rx ui ul bp (patternLoop rx ul e.2.2 e.2.1 (0, [])).2)
      else rulesLoop rx ui ul ctx rest (bm, bc, bp) := rfl

/-- The best confidence of the scorer's loop never drops below its accumulator. -/
theorem rulesLoop_conf_ge (rx : Regex) (ui ul : String) (ctx : ConversationContext) :
    ∀ (l : List LibEntry) (bm : Option String) (bc : ℚ) (bp : List (String × PVal)),
      bc ≤ (rulesLoop rx ui ul ctx l (bm, bc, bp)).2.1 := by
  intro l
  induction l with
  | nil => intro bm bc bp; exact le_refl _
  | cons e rest ih =>
      intro bm bc bp
      rw [rulesLoop_cons]
      split
      · next hlt => exact le_trans (le_of_lt hlt) (ih _ _ _)
      · exact ih _ _ _

/-- The best confidence of the scorer's loop is bounded by any bound that covers the
accumulator and every entry. -/
theorem rulesLoop_conf_le (rx : Regex) (ui ul : String) (ctx : ConversationContext)
    (B : ℚ) :
    ∀ (l : List LibEntry) (bm : Option String) (bc : ℚ) (bp : List (String × PVal)),
      bc ≤ B → (∀ e ∈ l, entryConfidence rx ul ctx e ≤ B) →
      (rulesLoop rx ui ul ctx l (bm, bc, bp)).2.1 ≤ B := by
  intro l
  induction l with
  | nil => intro bm bc bp hbc _; exact hbc
  | cons e rest ih =>
      intro bm bc bp hbc hl
      rw [rulesLoop_cons]
      split
      · exact ih _ _ _ (hl e (List.mem_cons_self ..))
          (fun x hx => hl x (List.mem_cons_of_mem _ hx))
      · exact ih _ _ _ hbc (fun x hx => hl x (List.mem_cons_of_mem _ hx))

/-- Gap lemma for the whole loop: a best confidence below 0.6 is at most 0.2. -/
theorem rulesLoop_gap (rx : Regex) (ui ul : String) (ctx : ConversationContext) :
    ∀ (l : List LibEntry) (bm : Option String) (bc : ℚ) (bp : List (String × PVal)),
      bc ≤ 0.2 →
      (∀ e ∈ l, entryConfidence rx ul ctx e < 0.6 → entryConfidence rx ul ctx e ≤ 0.2) →
      (rulesLoop rx ui ul ctx l (bm, bc, bp)).2.1 < 0.6 →
      (rulesLoop rx ui ul ctx l (bm, bc, bp)).2.1 ≤ 0.2 := by
  intro l
  induction l with
  | nil => intro bm bc bp hbc _ _; exact hbc
  | cons e rest ih =>
      intro bm bc bp hbc hl hres
      rw [rulesLoop_cons] at hres ⊢
      by_cases hc : bc < entryConfidence rx ul ctx e
      · rw [if_pos hc] at hres ⊢
        have hge := rulesLoop_conf_ge rx ui ul ctx rest (some e.1)
          (entryConfidence rx ul ctx e)
          (updateBestParameters rx ui ul bp (patternLoop rx ul e.2.2 e.2.1 (0, [])).2)
        have hlt : entryConfidence rx ul ctx e < 0.6 := lt_of_le_of_lt hge hres
        exact ih _ _ _ (hl e (List.mem_cons_self ..) hlt)
          (fun x hx hx6 => hl x (List.mem_cons_of_mem _ hx) hx6) hres
      · rw [if_neg hc] at hres ⊢
        exact ih _ _ _ hbc (fun x hx hx6 => hl x (List.mem_cons_of_mem _ hx) hx6) hres

/-- Selection lemma: when the loop reports a winner `j` not inherited from the
accumulator, `j` sits at some position `k`, beat the accumulator, and strictly beat
every earlier entry — ties never dislodge an earlier winner. -/
theorem rulesLoop_sel (rx : Regex) (ui ul : String) (ctx : ConversationContext) :
    ∀ (l : List LibEntry) (bm : Option String) (bc : ℚ) (bp : List (String × PVal))
      (j : String),
      (rulesLoop rx ui ul ctx l (bm, bc, bp)).1 = some j →
      bm = some j ∨
      ∃ k e, l.get? k = some e ∧ e.1 = j ∧ bc < entryConfidence rx ul ctx e ∧
        ∀ k' e', k' < k → l.get? k' = some e' →
          entryConfidence rx ul ctx e' < entryConfidence rx ul ctx e := by
  intro l
  induction l with
  | nil => intro bm bc bp j h; left; exact h
  | cons e rest ih =>
      intro bm bc bp j h
      rw [rulesLoop_cons] at h
      by_cases hc : bc < entryConfidence rx ul ctx e
      · rw [if_pos hc] at h
        rcases ih _ _ _ j h with h1 | ⟨k, e', hk, hj, hck, hall⟩
        · right
          refine ⟨0, e, rfl, Option.some.inj h1, hc, ?_⟩
          intro k' e' hk' _
          exact absurd hk' (Nat.not_lt_zero _)
        · right
          refine ⟨k + 1, e', by simpa using hk, hj, lt_trans hc hck, ?_⟩
          intro k' e'' hk' hke
          cases k' with
          | zero =>
              have : e'' = e := by
                have : some e = some e'' := hke
                exact (Option.some.inj this).symm
              rw [this]
              exact hck
          | succ k'' =>
              exact hall k'' e'' (by omega) (by simpa using hke)
      · rw [if_neg hc] at h
        rcases ih _ _ _ j h with h1 | ⟨k, e', hk, hj, hck, hall⟩
        · left; exact h1
        · right
          refine ⟨k + 1, e', by simpa using hk, hj, hck, ?_⟩
          intro k' e'' hk' hke
          cases k' with
          | zero =>
              have he'' : e'' = e := by
                have : some e = some e'' := hke
                exact (Option.some.inj this).symm
              rw [he'']
              exact lt_of_le_of_lt (not_lt.mp hc) hck
          | succ k'' =>
              exact hall k'' e'' (by omega) (by simpa using hke)

/-- The rule scorer's confidence always lies in [0, 1]. -/
theorem classifyWithRules_conf_bounds (rx : Regex) (ui : String) (ctx : ConversationContext) :
    0 ≤ (classifyWithRules rx ui ctx).1.confidence ∧
      (classifyWithRules rx ui ctx).1.confidence ≤ 1 :=
  ⟨rulesLoop_conf_ge rx ui (ui.toLower.trim) ctx intentPatterns none 0 _,
   rulesLoop_conf_le rx ui (ui.toLower.trim) ctx 1 intentPatterns none 0 _ (by norm_num)
     (fun e he => (entryConfidence_bounds rx (ui.toLower.trim) ctx e he).2)⟩

/-- Gap property of the rule scorer: a best confidence below 0.6 is at most 0.2. -/
theorem classifyWithRules_gap (rx : Regex) (ui : String) (ctx : ConversationContext)
    (h : (classifyWithRules rx ui ctx).1.confidence < 0.6) :
    (classifyWithRules rx ui ctx).1.confidence ≤ 0.2 :=
  rulesLoop_gap rx ui (ui.toLower.trim) ctx intentPatterns none 0 _ (by norm_num)
    (fun e he => entryConfidence_gap rx (ui.toLower.trim) ctx e he) h

/-- The confidence `_parse_llm_response` reports: 0.3 on a parse failure, 0.5 when the
JSON has no confidence field, and otherwise the collaborator's verbatim number. -/
theorem parseLLMResponse_conf_cases (jp : String → JsonOutcome) (response : String) :
    (parseLLMResponse jp response).confidence = 0.3 ∨
    (parseLLMResponse jp response).confidence = 0.5 ∨
    ∃ d q, jp (cleanResponse response).trim = .jdata d ∧ d.confidence = some (.val q) ∧
      (parseLLMResponse jp response).confidence = q := by
  unfold parseLLMResponse
  dsimp only
  rcases hj : jp (cleanResponse response).trim with msg | data <;> dsimp only
  · left; rfl
  · rcases hd : data.confidence with _ | c
    · right; left
      rfl
    · rcases c with q | msg
      · right; right
        exact ⟨data, q, rfl, hd, rfl⟩
      · left
        rfl

/-- `_classify_with_llm` keeps its confidence in [0, 1] as long as the stub's parsed
JSON confidence (when there is one) lies in [0, 1]. -/
theorem classifyWithLLM_conf_bounds (jp : String → JsonOutcome) (proc : Option SendOutcome)
    (ui : String) (ctx : ConversationContext)
    (hjp : ∀ s d q, proc = some (.returns s) → jp ((cleanResponse s).trim) = .jdata d →
      d.confidence = some (.val q) → 0 ≤ q ∧ q ≤ 1) :
    0 ≤ (classifyWithLLM jp proc ui ctx).1.confidence ∧
      (classifyWithLLM jp proc ui ctx).1.confidence ≤ 1 := by
  match proc with
  | none =>
      exact ⟨(by norm_num : (0 : ℚ) ≤ 0.5), (by norm_num : (0.5 : ℚ) ≤ 1)⟩
  | some (.raises e) =>
      exact ⟨(by norm_num : (0 : ℚ) ≤ 0.5), (by norm_num : (0.5 : ℚ) ≤ 1)⟩
  | some .nonString =>
      exact ⟨(by norm_num : (0 : ℚ) ≤ 0.5), (by norm_num : (0.5 : ℚ) ≤ 1)⟩
  | some (.returns s) =>
      have hconf : (classifyWithLLM jp (some (.returns s)) ui ctx).1.confidence =
          (parseLLMResponse jp s).confidence := by
        unfold classifyWithLLM
        dsimp only
        split <;> rfl
      rw [hconf]
      rcases parseLLMResponse_conf_cases jp s with h | h | ⟨d, q, hjd, hdc, h⟩ <;> rw [h]
      · exact ⟨by norm_num, by norm_num⟩
      · exact ⟨by norm_num, by norm_num⟩
      · exact hjp s d q rfl hjd hdc

/-- `_classify_with_llm` never writes to the conversation context. -/
theorem classifyWithLLM_ctx (jp : String → JsonOutcome) (proc : Option SendOutcome)
    (ui : String) (c : ConversationContext) : (classifyWithLLM jp proc ui c).2 = c := by
  rcases proc with _ | o
  · rfl
  · rcases o with e | _ | s <;> rfl

/-- The post-escalation tail of `classify` never writes to the context. -/
theorem classifyTail_ctx (jp : String → JsonOutcome) (proc : Option SendOutcome)
    (ui : String) (rr : IntentResult) (c : ConversationContext) :
    (classifyTail jp proc ui rr c).2 = c := by
  unfold classifyTail
  split
  · rfl
  · rcases proc with _ | o
    · rfl
    · dsimp only
      split
      · exact classifyWithLLM_ctx jp _ ui c
      · exact classifyWithLLM_ctx jp _ ui c

/-- `classify` never writes to the conversation context. -/
theorem classify_ctx (rx : Regex) (jp : String → JsonOutcome) (proc : Option SendOutcome)
    (ui : String) (ctx : ConversationContext) : (classify rx jp proc ui ctx).2 = ctx := by
  unfold classify
  dsimp only
  split
  · rfl
  · split
    · split
      · exact classifyWithLLM_ctx jp proc ui _
      · rw [classifyTail_ctx jp proc ui _ _, classifyWithLLM_ctx jp proc ui _]
        rfl
    · exact classifyTail_ctx jp proc ui _ _

/-- Confidence bounds for the tail of `classify`. -/
theorem classifyTail_conf_bounds (jp : String → JsonOutcome) (proc : Option SendOutcome)
    (ui : String) (rr : IntentResult) (c : ConversationContext)
    (hrr : 0 ≤ rr.confidence ∧ rr.confidence ≤ 1)
    (hjp : ∀ s d q, proc = some (.returns s) → jp ((cleanResponse s).trim) = .jdata d →
      d.confidence = some (.val q) → 0 ≤ q ∧ q ≤ 1) :
    0 ≤ (classifyTail jp proc ui rr c).1.confidence ∧
      (classifyTail jp proc ui rr c).1.confidence ≤ 1 := by
  unfold classifyTail
  split
  · exact hrr
  · rcases hp : proc with _ | o
    · exact ⟨(by norm_num : (0 : ℚ) ≤ 0.9), (by norm_num : (0.9 : ℚ) ≤ 1)⟩
    · dsimp only
      rw [hp] at hjp
      split
      · exact classifyWithLLM_conf_bounds jp _ ui c hjp
      · exact ⟨(by norm_num : (0 : ℚ) ≤ 0.9), (by norm_num : (0.9 : ℚ) ≤ 1)⟩

/-- C5 (amended): the result confidence lies in [0, 1] whenever the collaborator's
parsed JSON confidence does (in particular always when no collaborator is
configured, or when it raises, or when its reply fails to parse).  An `llm_based`
result copies the collaborator's JSON confidence without clamping, so this cannot be
strengthened to all collaborator behaviours — see the counterexample. -/
theorem claim_C5 (rx : Regex) (jp : String → JsonOutcome) (proc : Option SendOutcome)
    (user_input : String) (ctx : ConversationContext)
    (hjp : ∀ s d q, proc = some (.returns s) → jp ((cleanResponse s).trim) = .jdata d →
      d.confidence = some (.val q) → 0 ≤ q ∧ q ≤ 1) :
    0 ≤ (classify rx jp proc user_input ctx).1.confidence ∧
      (classify rx jp proc user_input ctx).1.confidence ≤ 1 := by
  have hr := classifyWithRules_conf_bounds rx user_input ctx
  unfold classify
  dsimp only
  split
  · exact hr
  · split
    · split
      · exact classifyWithLLM_conf_bounds jp proc user_input _ hjp
      · exact classifyTail_conf_bounds jp proc user_input _ _ hr hjp
    · exact classifyTail_conf_bounds jp proc user_input _ _ hr hjp

/-- Witness for C5 at a concrete input (no collaborator configured). -/
theorem claim_C5_witness :
    0 ≤ (classify noMatchRx jpErr none "zzz" initialContext).1.confidence ∧
      (classify noMatchRx jpErr none "zzz" initialContext).1.confidence ≤ 1 :=
  claim_C5 noMatchRx jpErr none "zzz" initialContext
    (fun _ _ _ hp _ _ => absurd hp (by simp))

/-- Counterexample to C5 as stated: with a collaborator whose reply parses to
confidence 5, `classify` returns an `llm_based` result with confidence 5 > 1 —
`_parse_llm_response` copies the JSON confidence without clamping. -/
theorem claim_C5_counterexample :
    (classify noMatchRx jpBig (some (.returns "RESP")) "zzz" initialContext).1.method =
      "llm_based" ∧
    ¬ ((classify noMatchRx jpBig (some (.returns "RESP")) "zzz" initialContext).1.confidence
      ≤ 1) := by
  with_unfolding_all decide

/-- C6: whenever `classify` invokes the collaborator (which requires the rule
confidence to be below 0.6) and `send_prompt` raises, no exception propagates (the
model is total) and the result is the `error_fallback` conversion: intent
`CLARIFICATION_NEEDED`, method `error_fallback`, the error text under the `error`
parameter key, and confidence 0.5. -/
theorem claim_C6 (rx : Regex) (jp : String → JsonOutcome) (e : String)
    (user_input : String) (ctx : ConversationContext)
    (hlow : (classifyWithRules rx user_input ctx).1.confidence < 0.6) :
    (classify rx jp (some (.raises e)) user_input ctx).1.intent = "CLARIFICATION_NEEDED" ∧
    (classify rx jp (some (.raises e)) user_input ctx).1.method = "error_fallback" ∧
    alookup (classify rx jp (some (.raises e)) user_input ctx).1.parameters "error" =
      some (.s e) ∧
    (classify rx jp (some (.raises e)) user_input ctx).1.confidence = 0.5 := by
  have hgap := classifyWithRules_gap rx user_input ctx hlow
  have h08 : ¬ (0.8 ≤ (classifyWithRules rx user_input ctx).1.confidence) := by
    intro hc
    have : (0.8 : ℚ) ≤ 0.2 := le_trans hc hgap
    norm_num at this
  have hgt : (classifyWithLLM jp (some (SendOutcome.raises e)) user_input
      ((classifyWithRules rx user_input ctx).2)).1.confidence >
      (classifyWithRules rx user_input ctx).1.confidence := by
    show (0.5 : ℚ) > _
    exact lt_of_le_of_lt hgap (by norm_num)
  unfold classify
  dsimp only
  rw [if_neg h08, if_pos ⟨rfl, hlow⟩, if_pos hgt]
  refine ⟨rfl, rfl, ?_, rfl⟩
  simp [classifyWithLLM, alookup]

/-- Witness for C6 at a concrete input: rule confidence 0.1 in `EMAIL_LOADED` on an
input matching nothing, collaborator raising with message `boom`. -/
theorem claim_C6_witness :
    (classifyWithRules noMatchRx "zzz" ctxEmailLoaded).1.confidence < 0.6 ∧
    (classify noMatchRx jpErr (some (.raises "boom")) "zzz" ctxEmailLoaded).1.method =
      "error_fallback" ∧
    alookup (classify noMatchRx jpErr (some (.raises "boom")) "zzz"
      ctxEmailLoaded).1.parameters "error" = some (.s "boom") :=
  ⟨by with_unfolding_all decide,
   (claim_C6 noMatchRx jpErr "boom" "zzz" ctxEmailLoaded
     (by with_unfolding_all decide)).2.1,
   (claim_C6 noMatchRx jpErr "boom" "zzz" ctxEmailLoaded
     (by with_unfolding_all decide)).2.2.1⟩

/-- With no regex match at all and the cleaned input outside the exact-phrase lists,
every entry's adjusted confidence is at most 0.2. -/
theorem entryConfidence_nomatch_le (ul : String) (ctx : ConversationContext)
    (hyes : yesWords.contains (ul.trim.toLower) = false)
    (hno : noWords.contains (ul.trim.toLower) = false)
    (e : LibEntry) (he : e ∈ intentPatterns) :
    entryConfidence noMatchRx ul ctx e ≤ 0.2 := by
  unfold entryConfidence
  dsimp only
  rw [patternLoop_nomatch noMatchRx ul e.2.2 e.2.1 (0, []) (fun p _ => rfl)]
  dsimp only
  unfold applyContextAdjustments
  rcases hs : alookup contextAdjustments ctx.current_state with _ | adj <;> dsimp only
  · rw [max_self]
    norm_num
  · simp only [hyes, hno, Bool.false_and, Bool.false_eq_true, if_false]
    rcases hb : alookup adj.default_boost e.1 with _ | d <;> dsimp only
    · rw [min_eq_left (by norm_num : (0 : ℚ) ≤ 1), max_self]
      norm_num
    · have hd := stateBoost_bounds ctx.current_state e.1 d
        (by unfold stateBoost; rw [hs]; exact hb)
      rw [zero_add, min_eq_left (le_trans hd.2 (by norm_num)), max_eq_right hd.1]
      exact hd.2

/-- For an empty or whitespace-only input (no regex matches, modelled by
`noMatchRx`), the rule scorer's confidence is at most 0.3 in every state. -/
theorem emptyInput_conf_le (ui : String) (ctx : ConversationContext)
    (hui : ui.toLower.trim = "") :
    (classifyWithRules noMatchRx ui ctx).1.confidence ≤ 0.3 := by
  have hle : (classifyWithRules noMatchRx ui ctx).1.confidence ≤ 0.2 :=
    rulesLoop_conf_le noMatchRx ui (ui.toLower.trim) ctx 0.2 intentPatterns none 0 _
      (by norm_num)
      (fun e he => by
        rw [hui]
        exact entryConfidence_nomatch_le "" ctx (by with_unfolding_all decide)
          (by with_unfolding_all decide) e he)
  exact le_trans hle (by norm_num)

/-- C7: with no collaborator configured and a rule confidence of at most 0.3,
`classify` returns the clarification fallback: intent `CLARIFICATION_NEEDED`,
confidence 0.9, method `fallback`, and parameters carrying the original input and
`fallback_attempted = False`.  The final conjunct covers the claim's "in
particular": an empty or whitespace-only input (on which no regex matches) has rule
confidence at most 0.3 in every state, so it takes this path whenever no
collaborator is configured. -/
theorem claim_C7 (rx : Regex) (jp : String → JsonOutcome)
    (user_input : String) (ctx : ConversationContext)
    (hlow : (classifyWithRules rx user_input ctx).1.confidence ≤ 0.3) :
    ((classify rx jp none user_input ctx).1 = clarificationFallback user_input none ∧
    (clarificationFallback user_input none).intent = "CLARIFICATION_NEEDED" ∧
    (clarificationFallback user_input none).confidence = 0.9 ∧
    (clarificationFallback user_input none).method = "fallback" ∧
    alookup (clarificationFallback user_input none).parameters "original_input" =
      some (.s user_input) ∧
    alookup (clarificationFallback user_input none).parameters "fallback_attempted" =
      some (.b false)) ∧
    ∀ (ui : String) (c : ConversationContext), ui.toLower.trim = "" →
      (classifyWithRules noMatchRx ui c).1.confidence ≤ 0.3 := by
  have h08 : ¬ (0.8 ≤ (classifyWithRules rx user_input ctx).1.confidence) := by
    intro hc
    have : (0.8 : ℚ) ≤ 0.3 := le_trans hc hlow
    norm_num at this
  refine ⟨⟨?_, rfl, rfl, rfl, by simp [clarificationFallback, alookup], ?_⟩,
    fun ui c hui => emptyInput_conf_le ui c hui⟩
  · unfold classify
    dsimp only
    rw [if_neg h08, if_neg (by simp : ¬ ((none : Option SendOutcome).isSome = true ∧
      (classifyWithRules rx user_input ctx).1.confidence < 0.6))]
    unfold classifyTail
    rw [if_neg (not_lt.mpr hlow)]
  · simp [clarificationFallback, alookup]

/-- Witness for C7 at a concrete input: whitespace-only input in `EMAIL_LOADED`
(rule confidence 0.1 from the unconditional boosts, no pattern match). -/
theorem claim_C7_witness :
    (classifyWithRules noMatchRx "   " ctxEmailLoaded).1.confidence ≤ 0.3 ∧
    (classify noMatchRx jpErr none "   " ctxEmailLoaded).1 =
      clarificationFallback "   " none :=
  ⟨by with_unfolding_all decide,
   (claim_C7 noMatchRx jpErr "   " ctxEmailLoaded (by with_unfolding_all decide)).1.1⟩

/-- C9: `classify` is deterministic and does not mutate the conversation context:
it returns the context unchanged, and a second call on the context left by the first
returns the same intent and the same method. -/
theorem claim_C9 (rx : Regex) (jp : String → JsonOutcome) (proc : Option SendOutcome)
    (user_input : String) (ctx : ConversationContext) :
    (classify rx jp proc user_input ctx).2 = ctx ∧
    (classify rx jp proc user_input ((classify rx jp proc user_input ctx).2)).1.intent =
      (classify rx jp proc user_input ctx).1.intent ∧
    (classify rx jp proc user_input ((classify rx jp proc user_input ctx).2)).1.method =
      (classify rx jp proc user_input ctx).1.method ∧
    (classify rx jp proc user_input ((classify rx jp proc user_input ctx).2)).2 = ctx := by
  refine ⟨classify_ctx rx jp proc user_input ctx, ?_, ?_, ?_⟩ <;>
    rw [classify_ctx rx jp proc user_input ctx]
  exact classify_ctx rx jp proc user_input ctx

/-- Counterexample to C3 as stated: in `EMAIL_LOADED` the intent `DRAFT_REPLY` has a
registered delta of 0.1; on input `"zzz"` (no regex matches — `noMatchRx` models
Python `re` there) none of the intent's patterns match, yet its rule-scored
confidence is 0.1, not 0: the delta is added without any pattern gate. -/
theorem claim_C3_counterexample :
    stateBoost ConversationState.EMAIL_LOADED "DRAFT_REPLY" = some 0.1 ∧
    ctxEmailLoaded.current_state = ConversationState.EMAIL_LOADED ∧
    (entryAt 1).1 = "DRAFT_REPLY" ∧
    ((entryAt 1).2.1.all fun p => !noMatchRx.search p "zzz") = true ∧
    intentConfidence noMatchRx "zzz" ctxEmailLoaded (entryAt 1) ≠ 0 := by
  with_unfolding_all decide

/-- C3 (amended): the registered delta is added to an intent's confidence regardless
of whether any of its patterns matched.  For an input matching none of the intent's
patterns and triggering no exact-phrase override, the intent's rule-scored confidence
equals the registered delta itself (not 0). -/
theorem claim_C3 (rx : Regex) (user_input : String) (ctx : ConversationContext)
    (e : LibEntry) (d : ℚ)
    (hd : stateBoost ctx.current_state e.1 = some d)
    (hno : ∀ p ∈ e.2.1, rx.search p (user_input.toLower.trim) = false)
    (hyes : (yesWords.contains ((user_input.toLower.trim).trim.toLower) &&
      (e.1 == "CONTINUE_WORKFLOW")) = false)
    (hneg : (noWords.contains ((user_input.toLower.trim).trim.toLower) &&
      (e.1 == "DECLINE_OFFER")) = false) :
    intentConfidence rx user_input ctx e = d := by
  have hdb := stateBoost_bounds ctx.current_state e.1 d hd
  unfold intentConfidence entryConfidence
  dsimp only
  rw [patternLoop_nomatch rx _ e.2.2 e.2.1 (0, []) hno]
  dsimp only
  unfold applyContextAdjustments
  unfold stateBoost at hd
  rcases hs : alookup contextAdjustments ctx.current_state with _ | adj
  · rw [hs] at hd
    cases hd
  · rw [hs] at hd
    dsimp only at hd
    dsimp only
    simp only [hyes, hneg, Bool.false_eq_true, if_false]
    rw [hd]
    dsimp only
    rw [zero_add, min_eq_left (le_trans hdb.2 (by norm_num)), max_eq_right hdb.1]

/-- Witness for C3 (amended) at a concrete input: the `DRAFT_REPLY` delta 0.1 in
`EMAIL_LOADED` on the no-match input `"zzz"`. -/
theorem claim_C3_witness :
    stateBoost ctxEmailLoaded.current_state (entryAt 1).1 = some 0.1 ∧
    intentConfidence noMatchRx "zzz" ctxEmailLoaded (entryAt 1) = 0.1 :=
  ⟨by with_unfolding_all decide,
   claim_C3 noMatchRx "zzz" ctxEmailLoaded (entryAt 1) 0.1
     (by with_unfolding_all decide) (by with_unfolding_all decide)
     (by with_unfolding_all decide) (by with_unfolding_all decide)⟩

/-- Counterexample to C4 as stated: on input `"zzz"` in `EMAIL_LOADED`, the two
distinct intents `DRAFT_REPLY` (registered 2nd) and `EXTRACT_INFO` (registered 5th)
tie at the highest adjusted confidence (both 0.1, which is the scorer's returned
best confidence), but the scorer returns the EARLIER-registered `DRAFT_REPLY`, not
the later one as claimed: the loop only replaces the running best on a strictly
greater confidence. -/
theorem claim_C4_counterexample :
    (entryAt 1).1 = "DRAFT_REPLY" ∧
    (entryAt 4).1 = "EXTRACT_INFO" ∧
    intentConfidence noMatchRx "zzz" ctxEmailLoaded (entryAt 1) =
      intentConfidence noMatchRx "zzz" ctxEmailLoaded (entryAt 4) ∧
    (classifyWithRules noMatchRx "zzz" ctxEmailLoaded).1.confidence =
      intentConfidence noMatchRx "zzz" ctxEmailLoaded (entryAt 4) ∧
    (classifyWithRules noMatchRx "zzz" ctxEmailLoaded).1.intent = "DRAFT_REPLY" := by
  with_unfolding_all decide

/-- C4 (amended): when an intent registered EARLIER in the pattern library reaches
the same adjusted confidence as a later-registered one, the later intent is never
the scorer's winner — ties are won by the earlier entry (strict `>` comparison). -/
theorem claim_C4 (rx : Regex) (user_input : String) (ctx : ConversationContext)
    (n m : ℕ) (en em : LibEntry)
    (hn : intentPatterns.get? n = some en) (hm : intentPatterns.get? m = some em)
    (hnm : n < m) (hne : en.1 ≠ em.1)
    (heq : intentConfidence rx user_input ctx en = intentConfidence rx user_input ctx em) :
    (classifyWithRules rx user_input ctx).1.intent ≠ em.1 := by
  intro hwin
  have hm_mem : em ∈ intentPatterns := List.get?_mem hm
  have hwin' : (rulesLoop rx user_input (user_input.toLower.trim) ctx intentPatterns
      (none, 0, initParams rx user_input)).1.getD "CLARIFICATION_NEEDED" = em.1 := hwin
  rcases hj : (rulesLoop rx user_input (user_input.toLower.trim) ctx intentPatterns
      (none, 0, initParams rx user_input)).1 with _ | j
  · rw [hj] at hwin'
    simp only [Option.getD_none] at hwin'
    exact lib_names_ne_clarification em hm_mem hwin'.symm
  · rw [hj] at hwin'
    simp only [Option.getD_some] at hwin'
    subst hwin'
    rcases rulesLoop_sel rx user_input (user_input.toLower.trim) ctx intentPatterns
        none 0 (initParams rx user_input) em.1 hj with h1 | ⟨k, e', hk, hj', hck, hall⟩
    · exact Option.noConfusion h1
    · have hk_lt : k < intentPatterns.length := by
        rcases List.get?_eq_some.mp hk with ⟨h, _⟩
        exact h
      have hmap_k : (intentPatterns.map Prod.fst).get? k = some em.1 := by
        rw [List.get?_map, hk]
        simp [hj']
      have hmap_m : (intentPatterns.map Prod.fst).get? m = some em.1 := by
        rw [List.get?_map, hm]
        rfl
      have hkm : k = m := List.get?_inj (by simpa using hk_lt) lib_names_nodup
        (hmap_k.trans hmap_m.symm)
      subst hkm
      have he' : e' = em := by
        rw [hm] at hk
        exact (Option.some.inj hk).symm
      subst he'
      have hcontr := hall n en hnm hn
      exact absurd hcontr (not_lt.mpr (le_of_eq heq.symm))

/-- Witness for C4 (amended) at the concrete tie of the counterexample: the
later-registered `EXTRACT_INFO` entry is not returned. -/
theorem claim_C4_witness :
    (classifyWithRules noMatchRx "zzz" ctxEmailLoaded).1.intent ≠ (entryAt 4).1 :=
  claim_C4 noMatchRx "zzz" ctxEmailLoaded 1 4 (entryAt 1) (entryAt 4)
    (by with_unfolding_all decide) (by with_unfolding_all decide) (by norm_num)
    (by with_unfolding_all decide) (by with_unfolding_all decide)

end EmailAssistant
